import Mathlib

/-!
Shallow embedding of the BISS repository's computational core:
`binary_star_simulator.py` (class `BinaryStarSystem`) and
`solar_system.py` (classes `CelestialBody` and `SolarSystem`).

Python floats are modelled as real numbers.  A Python float division
raises `ZeroDivisionError` when the divisor is zero, so every operation
whose source performs a division is modelled as an `Option`-valued
function returning `none` exactly when a divisor in the source is zero.
Python's `%` on floats with a positive modulus is `x - m * ⌊x / m⌋`,
modelled by `fmod` below.
-/

noncomputable section

open Real

/-- Real counterpart of Python's float `%`: `fmod x m = x - m * ⌊x / m⌋`.
For `m > 0` this agrees with Python's `x % m` (result in `[0, m)`). -/
def fmod (x m : ℝ) : ℝ := x - m * ⌊x / m⌋

/-- Counterpart of `numpy.radians` / degree-to-radian conversion. -/
def radians (d : ℝ) : ℝ := d * (Real.pi / 180)

/-! ## Embedding of `binary_star_simulator.py` -/

/-- State stored by `BinaryStarSystem.__init__` (lines 17-54 of
`binary_star_simulator.py`): the four inputs and the derived quantities. -/
structure BinaryStarSystem where
  mass1 : ℝ
  mass2 : ℝ
  semi_major_axis : ℝ
  period : ℝ
  total_mass : ℝ
  mass_ratio : ℝ
  r1 : ℝ
  r2 : ℝ
  omega : ℝ
  v1 : ℝ
  v2 : ℝ
  v1_kms : ℝ
  v2_kms : ℝ

/-- `BinaryStarSystem.__init__`.  The constructor performs no validation;
it divides by `mass1` (for `mass_ratio`), by `total_mass = mass1 + mass2`
(for `r1`, `r2`) and by `period` (for `omega`), so it raises
`ZeroDivisionError` (modelled `none`) exactly when one of those divisors
is zero, and otherwise stores the inputs verbatim together with the
derived quantities. -/
def BinaryStarSystem.make (m1 m2 a p : ℝ) : Option BinaryStarSystem :=
  if m1 = 0 ∨ m1 + m2 = 0 ∨ p = 0 then none
  else some
    { mass1 := m1
      mass2 := m2
      semi_major_axis := a
      period := p
      total_mass := m1 + m2
      mass_ratio := m2 / m1
      r1 := a * m2 / (m1 + m2)
      r2 := a * m1 / (m1 + m2)
      omega := 2 * Real.pi / p
      v1 := a * m2 / (m1 + m2) * (2 * Real.pi / p)
      v2 := a * m1 / (m1 + m2) * (2 * Real.pi / p)
      v1_kms := a * m2 / (m1 + m2) * (2 * Real.pi / p) * 1731.5
      v2_kms := a * m1 / (m1 + m2) * (2 * Real.pi / p) * 1731.5 }

/-- `BinaryStarSystem.calculate_radial_velocities` at a single time value
(lines 84-107): `theta = omega * t`, `rv1 = v1_kms * sin theta * sin incRad`,
`rv2 = v2_kms * sin (theta + pi) * sin incRad`. -/
def BinaryStarSystem.calculate_radial_velocities
    (s : BinaryStarSystem) (t inclination : ℝ) : ℝ × ℝ :=
  (s.v1_kms * Real.sin (s.omega * t) * Real.sin (radians inclination),
   s.v2_kms * Real.sin (s.omega * t + Real.pi) * Real.sin (radians inclination))

/-- `BinaryStarSystem.calculate_doppler_shift` (lines 109-126).  The
method does not read `self`, so it is embedded as a plain function:
`wavelength * (1 + rv / c)` with `c = 299792.458` km/s. -/
def calculate_doppler_shift (rv wavelength : ℝ) : ℝ :=
  wavelength * (1 + rv / 299792.458)

/-! ## Embedding of `solar_system.py` -/

/-- A `CelestialBody` (lines 11-32): the constructor arguments plus the
mutable phase `angle`, which `__init__` sets to `0`. -/
structure CelestialBody where
  name : String
  mass : ℝ
  distance : ℝ
  orbital_period : ℝ
  radius : ℝ
  color : String
  angle : ℝ

/-- `CelestialBody.__init__`: stores the arguments and sets `angle = 0`. -/
def CelestialBody.make (n : String) (m d p r : ℝ) (c : String) : CelestialBody :=
  { name := n, mass := m, distance := d, orbital_period := p, radius := r,
    color := c, angle := 0 }

/-- `CelestialBody.update_position` (lines 34-39): computes
`angular_velocity = 2*pi / orbital_period` — a `ZeroDivisionError`
(modelled `none`) when `orbital_period = 0` — then sets
`angle = (angle + angular_velocity * time_step) % (2*pi)`. -/
def updatePosition (b : CelestialBody) (t : ℝ) : Option CelestialBody :=
  if b.orbital_period = 0 then none
  else some { b with
    angle := fmod (b.angle + 2 * Real.pi / b.orbital_period * t) (2 * Real.pi) }

/-- `CelestialBody.get_position` (lines 41-45):
`(distance * cos angle, distance * sin angle)`. -/
def CelestialBody.get_position (b : CelestialBody) : ℝ × ℝ :=
  (b.distance * Real.cos b.angle, b.distance * Real.sin b.angle)

/-- `SolarSystem` state (lines 56-62): the central `sun` (kept out of
`bodies`), the list of orbiting `bodies`, and cumulative `time_elapsed`. -/
structure SolarSystem where
  sun : CelestialBody
  bodies : List CelestialBody
  time_elapsed : ℝ

/-- `SolarSystem.__init__` together with `setup_solar_system`
(lines 59-77): the Sun with `orbital_period = 0` stored separately, six
planets appended to `bodies`, `time_elapsed = 0`. -/
def SolarSystem.init : SolarSystem :=
  { sun := CelestialBody.make "Sun" 1.989e30 0 0 696340 "yellow"
    bodies :=
      [CelestialBody.make "Mercury" 3.285e23 0.39 88 2439.7 "gray",
       CelestialBody.make "Venus" 4.867e24 0.72 225 6051.8 "orange",
       CelestialBody.make "Earth" 5.972e24 1.0 365.25 6371 "blue",
       CelestialBody.make "Mars" 6.39e23 1.52 687 3389.5 "red",
       CelestialBody.make "Jupiter" 1.898e27 5.2 4333 69911 "orange",
       CelestialBody.make "Saturn" 5.683e26 9.54 10759 58232 "yellow"]
    time_elapsed := 0 }

/-- The loop body of `SolarSystem.update`: updates each body in order,
propagating a `ZeroDivisionError` (`none`) from any of them. -/
def updateBodies (t : ℝ) : List CelestialBody → Option (List CelestialBody)
  | [] => some []
  | b :: bs =>
      (updatePosition b t).bind fun b' =>
        (updateBodies t bs).map fun bs' => b' :: bs'

/-- `SolarSystem.update` (lines 79-83): updates every body, then
increments `time_elapsed` by the time step. -/
def SolarSystem.update (s : SolarSystem) (t : ℝ) : Option SolarSystem :=
  (updateBodies t s.bodies).map fun bs =>
    { s with bodies := bs, time_elapsed := s.time_elapsed + t }

/-- A sequence of `SolarSystem.update` calls. -/
def applyUpdates (s : SolarSystem) : List ℝ → Option SolarSystem
  | [] => some s
  | t :: ts => (s.update t).bind fun s' => applyUpdates s' ts

/-! ## Helper lemmas about `fmod` -/

/-- For a positive modulus, `fmod` lands in `[0, m)` — the range of
Python's float `%` with a positive right operand. -/
lemma fmod_mem_Ico (x : ℝ) {m : ℝ} (hm : 0 < m) :
    0 ≤ fmod x m ∧ fmod x m < m := by
  unfold fmod
  constructor
  · have h := Int.floor_le (x / m)
    have : m * ⌊x / m⌋ ≤ m * (x / m) := by
      exact mul_le_mul_of_nonneg_left h hm.le
    rw [mul_div_cancel₀ x hm.ne'] at this
    linarith
  · have h := Int.lt_floor_add_one (x / m)
    have : m * (x / m) < m * (⌊x / m⌋ + 1) := by
      exact mul_lt_mul_of_pos_left h hm
    rw [mul_div_cancel₀ x hm.ne'] at this
    ring_nf at this ⊢
    linarith

/-- If `x` is already in `[0, m)` then `fmod` leaves it unchanged. -/
lemma fmod_eq_self {x m : ℝ} (h0 : 0 ≤ x) (h1 : x < m) : fmod x m = x := by
  have hm : 0 < m := lt_of_le_of_lt h0 h1
  have hfloor : ⌊x / m⌋ = 0 := by
    rw [Int.floor_eq_zero_iff]
    constructor
    · exact div_nonneg h0 hm.le
    · rw [div_lt_one hm]; exact h1
  unfold fmod
  rw [hfloor]
  push_cast
  ring

/-- Reducing mod `m`, adding, and reducing again is the same as adding
and reducing once. -/
lemma fmod_add_fmod (x y m : ℝ) : fmod (fmod x m + y) m = fmod (x + y) m := by
  rcases eq_or_ne m 0 with hm | hm
  · subst hm; unfold fmod; ring
  · unfold fmod
    have hdiv : (x - m * ⌊x / m⌋ + y) / m = (x + y) / m - ⌊x / m⌋ := by
      field_simp
      ring
    rw [hdiv, Int.floor_sub_int]
    push_cast
    ring

/-! ## Claim C1 — construction-time validation -/

/-- C1 counterexample: constructing with `semiMajorAxis = -5` (not
strictly positive) succeeds instead of failing with
`InvalidParameterError`, and the negative value is stored unclamped. -/
theorem claim_C1_counterexample :
    ¬ (0 < (-5.0 : ℝ)) ∧
    (BinaryStarSystem.make 1.0 1.0 (-5.0) 365.0).isSome = true ∧
    (BinaryStarSystem.make 1.0 1.0 (-5.0) 365.0).map
      (fun s => s.semi_major_axis) = some (-5.0) := by
  refine ⟨by norm_num, ?_, ?_⟩ <;>
  · unfold BinaryStarSystem.make
    rw [if_neg (by norm_num)]
    rfl

/-- C1 amended: `BinaryStarSystem.__init__` performs no positivity
validation and never clamps: it fails (with `ZeroDivisionError`, the only
failure mode) exactly when `mass1 = 0`, `mass1 + mass2 = 0` or
`period = 0`; it succeeds whenever all four parameters are strictly
positive; and on success it stores the parameters verbatim together with
the derived quantities. -/
theorem claim_C1_no_validation (m1 m2 a p : ℝ) :
    (BinaryStarSystem.make m1 m2 a p = none ↔
      m1 = 0 ∨ m1 + m2 = 0 ∨ p = 0) ∧
    (0 < m1 → 0 < m2 → 0 < a → 0 < p →
      ∃ s, BinaryStarSystem.make m1 m2 a p = some s) ∧
    (∀ s, BinaryStarSystem.make m1 m2 a p = some s →
      s.mass1 = m1 ∧ s.mass2 = m2 ∧ s.semi_major_axis = a ∧ s.period = p ∧
      s.r1 = a * m2 / (m1 + m2) ∧ s.r2 = a * m1 / (m1 + m2) ∧
      s.omega = 2 * Real.pi / p) := by
  unfold BinaryStarSystem.make
  by_cases h : m1 = 0 ∨ m1 + m2 = 0 ∨ p = 0
  · rw [if_pos h]
    refine ⟨by simp [h], ?_, ?_⟩
    · intro h1 h2 ha hp
      exfalso
      rcases h with h | h | h
      · exact h1.ne' h
      · linarith
      · exact hp.ne' h
    · intro s hs
      exact Option.noConfusion hs
  · rw [if_neg h]
    refine ⟨⟨fun hc => Option.noConfusion hc, fun hd => absurd hd h⟩, ?_, ?_⟩
    · intro _ _ _ _
      exact ⟨_, rfl⟩
    · intro s hs
      injection hs with h'
      subst h'
      exact ⟨rfl, rfl, rfl, rfl, rfl, rfl, rfl⟩

/-- C1 amended, witnessed at concrete inputs: `period = 0` raises, and
the all-positive default parameters construct successfully. -/
theorem claim_C1_no_validation_witness :
    BinaryStarSystem.make 1.0 1.0 5.0 0 = none ∧
    (∃ s, BinaryStarSystem.make 1.5 1.0 5.0 365.0 = some s) := by
  constructor
  · exact (claim_C1_no_validation 1.0 1.0 5.0 0).1.mpr (Or.inr (Or.inr rfl))
  · exact (claim_C1_no_validation 1.5 1.0 5.0 365.0).2.1
      (by norm_num) (by norm_num) (by norm_num) (by norm_num)

/-! ## Claim C3 — orbital radii partition the semi-major axis -/

/-- C3: for strictly positive parameters the derived radii satisfy
`r1 + r2 = semiMajorAxis` and `mass1 * r1 = mass2 * r2` exactly, hence
also within the stated `1e-9` tolerances. -/
theorem claim_C3_radii_partition (m1 m2 a p : ℝ) (h1 : 0 < m1) (h2 : 0 < m2)
    (ha : 0 < a) (hp : 0 < p) (s : BinaryStarSystem)
    (hs : BinaryStarSystem.make m1 m2 a p = some s) :
    s.r1 + s.r2 = a ∧ m1 * s.r1 = m2 * s.r2 ∧
      |s.r1 + s.r2 - a| < 1e-9 ∧ |m1 * s.r1 - m2 * s.r2| < 1e-9 := by
  have hM : m1 + m2 ≠ 0 := by positivity
  unfold BinaryStarSystem.make at hs
  rw [if_neg (by push_neg; exact ⟨h1.ne', hM, hp.ne'⟩)] at hs
  injection hs with h'
  subst h'
  have e1 : a * m2 / (m1 + m2) + a * m1 / (m1 + m2) = a := by
    field_simp
    ring
  have e2 : m1 * (a * m2 / (m1 + m2)) = m2 * (a * m1 / (m1 + m2)) := by
    field_simp
    ring
  refine ⟨e1, e2, ?_, ?_⟩
  · simp only [e1, sub_self, abs_zero]
    norm_num
  · simp only [e2, sub_self, abs_zero]
    norm_num

/-- C3 witnessed at the default parameters `(1.5, 1.0, 5.0, 365.0)`. -/
theorem claim_C3_radii_partition_witness :
    ∃ s, BinaryStarSystem.make 1.5 1.0 5.0 365.0 = some s ∧
      (s.r1 + s.r2 = 5.0 ∧ 1.5 * s.r1 = 1.0 * s.r2 ∧
        |s.r1 + s.r2 - 5.0| < 1e-9 ∧ |1.5 * s.r1 - 1.0 * s.r2| < 1e-9) := by
  have hmk : BinaryStarSystem.make (1.5 : ℝ) 1.0 5.0 365.0 =
      some
        { mass1 := 1.5, mass2 := 1.0, semi_major_axis := 5.0, period := 365.0,
          total_mass := 1.5 + 1.0, mass_ratio := 1.0 / 1.5,
          r1 := 5.0 * 1.0 / (1.5 + 1.0), r2 := 5.0 * 1.5 / (1.5 + 1.0),
          omega := 2 * Real.pi / 365.0,
          v1 := 5.0 * 1.0 / (1.5 + 1.0) * (2 * Real.pi / 365.0),
          v2 := 5.0 * 1.5 / (1.5 + 1.0) * (2 * Real.pi / 365.0),
          v1_kms := 5.0 * 1.0 / (1.5 + 1.0) * (2 * Real.pi / 365.0) * 1731.5,
          v2_kms := 5.0 * 1.5 / (1.5 + 1.0) * (2 * Real.pi / 365.0) * 1731.5 } := by
    unfold BinaryStarSystem.make
    rw [if_neg (by norm_num)]
  exact ⟨_, hmk, claim_C3_radii_partition 1.5 1.0 5.0 365.0
    (by norm_num) (by norm_num) (by norm_num) (by norm_num) _ hmk⟩

/-! ## Claim C5 — Doppler shift sign behaviour -/

/-- C5: `calculate_doppler_shift` returns `w * (1 + rv / c)` with
`c = 299792.458`; for positive rest wavelength, zero velocity leaves the
wavelength unchanged, positive velocity lengthens it, negative velocity
shortens it. -/
theorem claim_C5_doppler_shift (v w : ℝ) (hw : 0 < w) :
    calculate_doppler_shift v w = w * (1 + v / 299792.458) ∧
    calculate_doppler_shift 0 w = w ∧
    (0 < v → w < calculate_doppler_shift v w) ∧
    (v < 0 → calculate_doppler_shift v w < w) := by
  unfold calculate_doppler_shift
  refine ⟨rfl, by norm_num, ?_, ?_⟩
  · intro hv
    have hpos : 0 < w * (v / 299792.458) :=
      mul_pos hw (div_pos hv (by norm_num))
    nlinarith
  · intro hv
    have hneg : w * (v / 299792.458) < 0 :=
      mul_neg_of_pos_of_neg hw (div_neg_of_neg_of_pos hv (by norm_num))
    nlinarith

/-- C5 witnessed at `w = 656.3` with velocities `0`, `100`, `-100`. -/
theorem claim_C5_doppler_shift_witness :
    calculate_doppler_shift 0 656.3 = 656.3 ∧
    656.3 < calculate_doppler_shift 100 656.3 ∧
    calculate_doppler_shift (-100) 656.3 < 656.3 :=
  ⟨(claim_C5_doppler_shift 0 656.3 (by norm_num)).2.1,
   (claim_C5_doppler_shift 100 656.3 (by norm_num)).2.2.1 (by norm_num),
   (claim_C5_doppler_shift (-100) 656.3 (by norm_num)).2.2.2 (by norm_num)⟩

/-! ## Claim C4 — radial velocity sign structure -/

/-- Evaluation of the constructor on any inputs that avoid its zero
divisors. -/
lemma make_eq_some {m1 m2 a p : ℝ} (h1 : m1 ≠ 0) (hM : m1 + m2 ≠ 0)
    (hp : p ≠ 0) :
    BinaryStarSystem.make m1 m2 a p = some
      { mass1 := m1, mass2 := m2, semi_major_axis := a, period := p,
        total_mass := m1 + m2, mass_ratio := m2 / m1,
        r1 := a * m2 / (m1 + m2), r2 := a * m1 / (m1 + m2),
        omega := 2 * Real.pi / p,
        v1 := a * m2 / (m1 + m2) * (2 * Real.pi / p),
        v2 := a * m1 / (m1 + m2) * (2 * Real.pi / p),
        v1_kms := a * m2 / (m1 + m2) * (2 * Real.pi / p) * 1731.5,
        v2_kms := a * m1 / (m1 + m2) * (2 * Real.pi / p) * 1731.5 } := by
  unfold BinaryStarSystem.make
  rw [if_neg (by push_neg; exact ⟨h1, hM, hp⟩)]

/-- C4 counterexample: at inclination `180` (for which the claim makes no
exception) and a non-node time, both radial velocities are zero, so they
do not have strictly opposite sign. -/
theorem claim_C4_counterexample :
    ∃ s, BinaryStarSystem.make 1.0 1.0 1.0 4.0 = some s ∧
      Real.sin (s.omega * 1) ≠ 0 ∧
      (s.calculate_radial_velocities 1 180).1 = 0 ∧
      (s.calculate_radial_velocities 1 180).2 = 0 ∧
      ¬ ((s.calculate_radial_velocities 1 180).1 *
          (s.calculate_radial_velocities 1 180).2 < 0) := by
  refine ⟨_, make_eq_some (by norm_num) (by norm_num) (by norm_num),
    ?_, ?_, ?_, ?_⟩
  · have homega : (2 * Real.pi / 4.0) * 1 = Real.pi / 2 := by ring
    simp only [homega, Real.sin_pi_div_two]
    norm_num
  · have hrad : radians 180 = Real.pi := by
      unfold radians
      ring
    simp [BinaryStarSystem.calculate_radial_velocities, hrad, Real.sin_pi]
  · have hrad : radians 180 = Real.pi := by
      unfold radians
      ring
    simp [BinaryStarSystem.calculate_radial_velocities, hrad, Real.sin_pi]
  · have hrad : radians 180 = Real.pi := by
      unfold radians
      ring
    simp [BinaryStarSystem.calculate_radial_velocities, hrad, Real.sin_pi]

/-- C4 amended: for every valid system, the radial velocities have
strictly opposite sign except at nodes (`sin theta = 0`) and except at
face-on orientations where `sin` of the inclination in radians vanishes
(inclinations that are multiples of 180 degrees, such as 0 and 180); at
`inclinationDegrees = 0` both are identically zero for all `t`. -/
theorem claim_C4_radial_velocity_signs (m1 m2 a p : ℝ) (h1 : 0 < m1)
    (h2 : 0 < m2) (ha : 0 < a) (hp : 0 < p) (s : BinaryStarSystem)
    (hs : BinaryStarSystem.make m1 m2 a p = some s) (t inc : ℝ) :
    (Real.sin (radians inc) ≠ 0 → Real.sin (s.omega * t) ≠ 0 →
      (s.calculate_radial_velocities t inc).1 *
        (s.calculate_radial_velocities t inc).2 < 0) ∧
    (inc = 0 → (s.calculate_radial_velocities t inc).1 = 0 ∧
      (s.calculate_radial_velocities t inc).2 = 0) := by
  have hMpos : 0 < m1 + m2 := by linarith
  rw [make_eq_some h1.ne' hMpos.ne' hp.ne'] at hs
  injection hs with h'
  subst h'
  constructor
  · intro hinc hsin
    simp only [BinaryStarSystem.calculate_radial_velocities] at hsin ⊢
    rw [Real.sin_add_pi]
    have hv1 : 0 < a * m2 / (m1 + m2) * (2 * Real.pi / p) * 1731.5 := by
      have := Real.pi_pos
      positivity
    have hv2 : 0 < a * m1 / (m1 + m2) * (2 * Real.pi / p) * 1731.5 := by
      have := Real.pi_pos
      positivity
    have hsq : 0 < (Real.sin (2 * Real.pi / p * t) * Real.sin (radians inc)) ^ 2 :=
      pow_two_pos_of_ne_zero (mul_ne_zero hsin hinc)
    nlinarith [mul_pos (mul_pos hv1 hv2) hsq]
  · intro h0
    subst h0
    have hrad : radians 0 = 0 := by
      unfold radians
      ring
    simp [BinaryStarSystem.calculate_radial_velocities, hrad]

/-- C4 amended, witnessed at edge-on inclination `90` and time `period/4`,
plus the face-on zero case. -/
theorem claim_C4_radial_velocity_signs_witness :
    ∃ s, BinaryStarSystem.make 1.0 1.0 1.0 4.0 = some s ∧
      (s.calculate_radial_velocities 1 90).1 *
        (s.calculate_radial_velocities 1 90).2 < 0 ∧
      (s.calculate_radial_velocities 1 0).1 = 0 ∧
      (s.calculate_radial_velocities 1 0).2 = 0 := by
  have hmk := @make_eq_some 1.0 1.0 1.0 4.0
    (by norm_num) (by norm_num) (by norm_num)
  have hmain := claim_C4_radial_velocity_signs 1.0 1.0 1.0 4.0
    (by norm_num) (by norm_num) (by norm_num) (by norm_num) _ hmk
  refine ⟨_, hmk, ?_, ?_, ?_⟩
  · refine (hmain 1 90).1 ?_ ?_
    · have hrad : radians 90 = Real.pi / 2 := by
        unfold radians
        ring
      rw [hrad, Real.sin_pi_div_two]
      norm_num
    · have homega : (2 * Real.pi / 4.0) * 1 = Real.pi / 2 := by ring
      show Real.sin ((2 * Real.pi / 4.0) * 1) ≠ 0
      rw [homega, Real.sin_pi_div_two]
      norm_num
  · exact ((hmain 1 0).2 rfl).1
  · exact ((hmain 1 0).2 rfl).2

/-! ## Claim C2 — behaviour of the per-body update on non-positive periods -/

/-- C2 counterexample: a body with `orbitalPeriod = 0` makes
`update_position` raise `ZeroDivisionError` (modelled `none`) instead of
skipping, and a body with `orbitalPeriod = -4 < 0` has its phase angle
changed by the update instead of left unchanged. -/
theorem claim_C2_counterexample :
    updatePosition (CelestialBody.make "Sun" 1.989e30 0 0 696340 "yellow") 1
      = none ∧
    (∃ b', updatePosition (CelestialBody.make "X" 1 1 (-4) 1 "white") 1
        = some b' ∧
      b'.angle ≠ (CelestialBody.make "X" 1 1 (-4) 1 "white").angle) := by
  constructor
  · simp [updatePosition, CelestialBody.make]
  · have hne : (CelestialBody.make "X" 1 1 (-4) 1 "white").orbital_period ≠ 0 := by
      norm_num [CelestialBody.make]
    refine ⟨{ name := "X", mass := 1, distance := 1, orbital_period := -4,
              radius := 1, color := "white",
              angle := fmod ((0 : ℝ) + 2 * Real.pi / (-4) * 1) (2 * Real.pi) },
      ?_, ?_⟩
    · unfold updatePosition
      rw [if_neg hne]
      rfl
    · show fmod ((0 : ℝ) + 2 * Real.pi / (-4) * 1) (2 * Real.pi) ≠ (0 : ℝ)
      have harg : ((0 : ℝ) + 2 * Real.pi / (-4) * 1) = -(Real.pi / 2) := by ring
      have hfloor : ⌊(0 + 2 * Real.pi / (-4) * 1) / (2 * Real.pi)⌋ = -1 := by
        have h2pi : (2 * Real.pi) ≠ 0 := by positivity
        have hq : (0 + 2 * Real.pi / (-4) * 1) / (2 * Real.pi) = -(1 / 4) := by
          field_simp
          ring
        rw [hq, Int.floor_eq_iff]
        constructor
        · norm_num
        · norm_num
      have hval : fmod (0 + 2 * Real.pi / (-4) * 1) (2 * Real.pi)
          = 3 * Real.pi / 2 := by
        unfold fmod
        rw [hfloor, harg]
        push_cast
        ring
      rw [hval]
      positivity

/-- C2 amended: the code never skips the angular-velocity update.  For
any body with `orbitalPeriod = 0` and any time step, `update_position`
raises `ZeroDivisionError` (modelled `none`) rather than leaving the
phase angle unchanged; and for a negative `orbitalPeriod` the angular
update is applied, changing the phase angle (here to `3π/2`).  The
constructed solar system never triggers the zero case because the
zero-period Sun is not among the updated bodies. -/
theorem claim_C2_no_skip :
    (∀ (b : CelestialBody) (t : ℝ), b.orbital_period = 0 →
      updatePosition b t = none) ∧
    (∃ b', updatePosition (CelestialBody.make "X" 1 1 (-4) 1 "white") 1
        = some b' ∧ b'.angle = 3 * Real.pi / 2 ∧ b'.angle ≠ 0) := by
  constructor
  · intro b t h
    unfold updatePosition
    rw [if_pos h]
  · have hne : (CelestialBody.make "X" 1 1 (-4) 1 "white").orbital_period ≠ 0 := by
      norm_num [CelestialBody.make]
    have hval : fmod ((0 : ℝ) + 2 * Real.pi / (-4) * 1) (2 * Real.pi)
        = 3 * Real.pi / 2 := by
      have harg : ((0 : ℝ) + 2 * Real.pi / (-4) * 1) = -(Real.pi / 2) := by ring
      have hfloor : ⌊((0 : ℝ) + 2 * Real.pi / (-4) * 1) / (2 * Real.pi)⌋ = -1 := by
        have hq : ((0 : ℝ) + 2 * Real.pi / (-4) * 1) / (2 * Real.pi) = -(1 / 4) := by
          have h2pi : (2 * Real.pi) ≠ 0 := by positivity
          field_simp
          ring
        rw [hq, Int.floor_eq_iff]
        constructor
        · norm_num
        · norm_num
      unfold fmod
      rw [hfloor, harg]
      push_cast
      ring
    refine ⟨{ name := "X", mass := 1, distance := 1, orbital_period := -4,
              radius := 1, color := "white",
              angle := fmod ((0 : ℝ) + 2 * Real.pi / (-4) * 1) (2 * Real.pi) },
      ?_, ?_, ?_⟩
    · unfold updatePosition
      rw [if_neg hne]
      rfl
    · exact hval
    · show fmod ((0 : ℝ) + 2 * Real.pi / (-4) * 1) (2 * Real.pi) ≠ 0
      rw [hval]
      positivity

/-! ## Claim C6 — composing two updates equals one combined update -/

/-- Evaluation of `updatePosition` on a body with nonzero period. -/
lemma updatePosition_of_ne (b : CelestialBody) (t : ℝ)
    (h : b.orbital_period ≠ 0) :
    updatePosition b t = some { b with
      angle := fmod (b.angle + 2 * Real.pi / b.orbital_period * t)
        (2 * Real.pi) } := by
  unfold updatePosition
  rw [if_neg h]

/-- C6: for an orbiting body, advancing by `t1` and then by `t2` produces
exactly the same body (in particular the same wrapped phase angle) as
advancing once by `t1 + t2`. -/
theorem claim_C6_update_composes (b : CelestialBody) (t1 t2 : ℝ)
    (hp : 0 < b.orbital_period) :
    (updatePosition b t1).bind (fun b1 => updatePosition b1 t2) =
      updatePosition b (t1 + t2) := by
  have hne : b.orbital_period ≠ 0 := hp.ne'
  have hne1 : ({ b with angle := fmod (b.angle + 2 * Real.pi / b.orbital_period * t1) (2 * Real.pi) } : CelestialBody).orbital_period ≠ 0 := hne
  rw [updatePosition_of_ne b t1 hne, Option.some_bind,
    updatePosition_of_ne _ t2 hne1, updatePosition_of_ne b (t1 + t2) hne]
  simp only [Option.some.injEq, CelestialBody.mk.injEq, true_and]
  rw [fmod_add_fmod]
  congr 1
  ring

/-- C6 witnessed on the Earth body with time steps `100` and `50`. -/
theorem claim_C6_update_composes_witness :
    (updatePosition (CelestialBody.make "Earth" 5.972e24 1.0 365.25 6371 "blue")
        100).bind
      (fun b1 => updatePosition b1 50) =
    updatePosition (CelestialBody.make "Earth" 5.972e24 1.0 365.25 6371 "blue")
      (100 + 50) :=
  claim_C6_update_composes _ 100 50 (by norm_num [CelestialBody.make])

/-! ## Claim C9 — phase angle starts at zero and stays in `[0, 2*pi)` -/

/-- C9: every newly constructed body has `phaseAngle = 0`, and whenever
`update_position` succeeds (for any real time step, positive or
negative), the resulting phase angle lies in `[0, 2*pi)`. -/
theorem claim_C9_phase_range :
    (∀ (n : String) (m d p r : ℝ) (c : String),
      (CelestialBody.make n m d p r c).angle = 0) ∧
    (∀ (b b' : CelestialBody) (t : ℝ), updatePosition b t = some b' →
      0 ≤ b'.angle ∧ b'.angle < 2 * Real.pi) := by
  constructor
  · intro n m d p r c
    rfl
  · intro b b' t h
    unfold updatePosition at h
    by_cases hz : b.orbital_period = 0
    · rw [if_pos hz] at h
      exact Option.noConfusion h
    · rw [if_neg hz] at h
      injection h with h'
      subst h'
      exact fmod_mem_Ico _ (by positivity)

/-- C9 witnessed on the Earth body with a one-day step (and a new body's
zero angle). -/
theorem claim_C9_phase_range_witness :
    (CelestialBody.make "Earth" 5.972e24 1.0 365.25 6371 "blue").angle = 0 ∧
    (∃ b', updatePosition
        (CelestialBody.make "Earth" 5.972e24 1.0 365.25 6371 "blue") 1
        = some b' ∧ 0 ≤ b'.angle ∧ b'.angle < 2 * Real.pi) := by
  have hne : (CelestialBody.make "Earth" 5.972e24 1.0 365.25 6371
      "blue").orbital_period ≠ 0 := by
    norm_num [CelestialBody.make]
  have hup : updatePosition
      (CelestialBody.make "Earth" 5.972e24 1.0 365.25 6371 "blue") 1 =
      some { CelestialBody.make "Earth" 5.972e24 1.0 365.25 6371 "blue" with
             angle := fmod ((0 : ℝ) + 2 * Real.pi / 365.25 * 1) (2 * Real.pi) } := by
    unfold updatePosition
    rw [if_neg hne]
    rfl
  exact ⟨claim_C9_phase_range.1 "Earth" 5.972e24 1.0 365.25 6371 "blue",
    ⟨_, hup, claim_C9_phase_range.2 _ _ 1 hup⟩⟩

/-! ## Solar-system update machinery -/

/-- If every body in the list has positive period, updating the list
succeeds and periods are preserved positive. -/
lemma updateBodies_of_pos (t : ℝ) (l : List CelestialBody)
    (h : ∀ b ∈ l, 0 < b.orbital_period) :
    ∃ l', updateBodies t l = some l' ∧ ∀ b' ∈ l', 0 < b'.orbital_period := by
  induction l with
  | nil => exact ⟨[], rfl, by simp⟩
  | cons b bs ih =>
    have hb : 0 < b.orbital_period := h b (List.mem_cons_self b bs)
    have hbs : ∀ x ∈ bs, 0 < x.orbital_period :=
      fun x hx => h x (List.mem_cons_of_mem _ hx)
    obtain ⟨l', hl', hpos⟩ := ih hbs
    refine ⟨{ b with angle := fmod (b.angle + 2 * Real.pi / b.orbital_period * t) (2 * Real.pi) } :: l', ?_, ?_⟩
    · simp only [updateBodies]
      rw [updatePosition_of_ne b t hb.ne', Option.some_bind, hl', Option.map_some']
    · intro b' hb'
      rcases List.mem_cons.mp hb' with h1 | h1
      · subst h1
        exact hb
      · exact hpos b' h1

/-- If every body has positive period, `SolarSystem.update` succeeds,
leaves the sun untouched, adds the step to `time_elapsed`, and keeps all
periods positive. -/
lemma update_of_pos (s : SolarSystem) (t : ℝ)
    (h : ∀ b ∈ s.bodies, 0 < b.orbital_period) :
    ∃ s', s.update t = some s' ∧ s'.sun = s.sun ∧
      s'.time_elapsed = s.time_elapsed + t ∧
      ∀ b' ∈ s'.bodies, 0 < b'.orbital_period := by
  obtain ⟨l', hl', hpos⟩ := updateBodies_of_pos t s.bodies h
  refine ⟨{ s with bodies := l', time_elapsed := s.time_elapsed + t },
    ?_, rfl, rfl, hpos⟩
  unfold SolarSystem.update
  rw [hl', Option.map_some']

/-- Every planet installed by `setup_solar_system` has a strictly
positive orbital period. -/
lemma init_bodies_pos : ∀ b ∈ SolarSystem.init.bodies, 0 < b.orbital_period := by
  intro b hb
  simp only [SolarSystem.init, List.mem_cons, List.not_mem_nil, or_false] at hb
  rcases hb with rfl | rfl | rfl | rfl | rfl | rfl <;> norm_num [CelestialBody.make]

/-! ## Claim C7 — evolution of `time_elapsed` -/

/-- C7 counterexample: one `update` call with the negative step `-1`
(negative steps are explicitly allowed) strictly decreases
`timeElapsed`, so it is not monotonically non-decreasing. -/
theorem claim_C7_counterexample :
    ∃ s', SolarSystem.init.update (-1) = some s' ∧
      s'.time_elapsed < SolarSystem.init.time_elapsed := by
  obtain ⟨s', hu, -, hte, -⟩ := update_of_pos SolarSystem.init (-1) init_bodies_pos
  refine ⟨s', hu, ?_⟩
  rw [hte]
  show SolarSystem.init.time_elapsed + (-1) < SolarSystem.init.time_elapsed
  linarith

/-- C7 amended: each `update` call adds exactly its time step to
`timeElapsed`; consequently `timeElapsed` is non-decreasing across
updates with non-negative steps, while a negative step decreases it. -/
theorem claim_C7_time_elapsed (s : SolarSystem) (t : ℝ) (s' : SolarSystem)
    (h : s.update t = some s') :
    s'.time_elapsed = s.time_elapsed + t ∧
    (0 ≤ t → s.time_elapsed ≤ s'.time_elapsed) := by
  unfold SolarSystem.update at h
  obtain ⟨l, hl, hfb⟩ := Option.map_eq_some'.mp h
  subst hfb
  exact ⟨rfl, fun ht => le_add_of_nonneg_right ht⟩

/-- C7 amended, witnessed by one `update 5` call on the freshly
constructed system. -/
theorem claim_C7_time_elapsed_witness :
    ∃ s', SolarSystem.init.update 5 = some s' ∧
      s'.time_elapsed = SolarSystem.init.time_elapsed + 5 ∧
      SolarSystem.init.time_elapsed ≤ s'.time_elapsed := by
  obtain ⟨s', hu, -, -, -⟩ := update_of_pos SolarSystem.init 5 init_bodies_pos
  have hc := claim_C7_time_elapsed SolarSystem.init 5 s' hu
  exact ⟨s', hu, hc.1, hc.2 (by norm_num)⟩

/-! ## Claim C10 — no division by zero in the constructed system -/

/-- Any sequence of updates from a state whose bodies all have positive
periods succeeds and never touches the sun. -/
lemma applyUpdates_of_pos : ∀ (ts : List ℝ) (s : SolarSystem),
    (∀ b ∈ s.bodies, 0 < b.orbital_period) →
    ∃ s', applyUpdates s ts = some s' ∧ s'.sun = s.sun ∧
      ∀ b' ∈ s'.bodies, 0 < b'.orbital_period := by
  intro ts
  induction ts with
  | nil => exact fun s h => ⟨s, rfl, rfl, h⟩
  | cons t ts ih =>
    intro s h
    obtain ⟨s1, hu, hsun, -, hpos⟩ := update_of_pos s t h
    obtain ⟨s', hs', hsun', hpos'⟩ := ih s1 hpos
    refine ⟨s', ?_, hsun'.trans hsun, hpos'⟩
    simp only [applyUpdates]
    rw [hu, Option.some_bind, hs']

/-- C10: for every sequence of update steps, the constructed solar
system's updates all succeed (no division by zero, because the
zero-period Sun is stored outside `bodies` and every body has a strictly
positive period), and the Sun's phase angle and `(0, 0)` position are
unchanged throughout. -/
theorem claim_C10_sun_safe (ts : List ℝ) :
    ∃ s', applyUpdates SolarSystem.init ts = some s' ∧
      s'.sun = SolarSystem.init.sun ∧ s'.sun.angle = 0 ∧
      s'.sun.get_position = (0, 0) ∧
      ∀ b ∈ SolarSystem.init.bodies, 0 < b.orbital_period := by
  obtain ⟨s', hs', hsun, -⟩ :=
    applyUpdates_of_pos ts SolarSystem.init init_bodies_pos
  refine ⟨s', hs', hsun, ?_, ?_, init_bodies_pos⟩
  · rw [hsun]
    rfl
  · rw [hsun]
    show CelestialBody.get_position SolarSystem.init.sun = (0, 0)
    simp [CelestialBody.get_position, SolarSystem.init, CelestialBody.make]

/-- C10 witnessed on the CLI's three step sizes `1`, `30`, `365`, with
the positive-period fact instantiated at the Earth body. -/
theorem claim_C10_sun_safe_witness :
    ∃ s', applyUpdates SolarSystem.init [1, 30, 365] = some s' ∧
      s'.sun = SolarSystem.init.sun ∧ s'.sun.angle = 0 ∧
      s'.sun.get_position = (0, 0) ∧
      0 < (CelestialBody.make "Earth" 5.972e24 1.0 365.25 6371
        "blue").orbital_period := by
  obtain ⟨s', h1, h2, h3, h4, h5⟩ := claim_C10_sun_safe [1, 30, 365]
  exact ⟨s', h1, h2, h3, h4,
    h5 (CelestialBody.make "Earth" 5.972e24 1.0 365.25 6371 "blue")
      (by simp [SolarSystem.init])⟩

/-! ## Claim C8 — Earth after a 182.5-day step -/

/-- Updating the Earth body (`distance = 1.0`, `orbitalPeriod = 365.25`)
from phase `0` by `182.5` days gives phase `1460 * pi / 1461` exactly. -/
lemma earth_update_half_year :
    updatePosition (CelestialBody.make "Earth" 5.972e24 1.0 365.25 6371
        "blue") 182.5 =
      some { CelestialBody.make "Earth" 5.972e24 1.0 365.25 6371 "blue" with
             angle := 1460 * Real.pi / 1461 } := by
  rw [updatePosition_of_ne _ _ (by norm_num [CelestialBody.make])]
  simp only [CelestialBody.make, Option.some.injEq, CelestialBody.mk.injEq,
    true_and, and_true]
  have hnum : (2 : ℝ) / 365.25 * 182.5 = 1460 / 1461 := by norm_num
  have harg : (0 : ℝ) + 2 * Real.pi / 365.25 * 182.5 = 1460 * Real.pi / 1461 := by
    calc (0 : ℝ) + 2 * Real.pi / 365.25 * 182.5
        = 2 / 365.25 * 182.5 * Real.pi := by ring
      _ = 1460 / 1461 * Real.pi := by rw [hnum]
      _ = 1460 * Real.pi / 1461 := by ring
  rw [harg]
  apply fmod_eq_self
  · positivity
  · nlinarith [Real.pi_pos]

/-- C8 counterexample: after the `182.5`-day step the phase angle is
`1460 * pi / 1461`, which differs from `pi` by `pi / 1461 > 1/1000` —
more than any floating-point tolerance, so `phaseAngle ≈ pi` fails. -/
theorem claim_C8_counterexample :
    ∃ b', updatePosition (CelestialBody.make "Earth" 5.972e24 1.0 365.25 6371
        "blue") 182.5 = some b' ∧
      1 / 1000 < |b'.angle - Real.pi| := by
  refine ⟨_, earth_update_half_year, ?_⟩
  show (1 : ℝ) / 1000 < |1460 * Real.pi / 1461 - Real.pi|
  have h : 1460 * Real.pi / 1461 - Real.pi = -(Real.pi / 1461) := by ring
  rw [h, abs_neg, abs_of_pos (by positivity)]
  rw [lt_div_iff₀ (by norm_num : (0 : ℝ) < 1461)]
  nlinarith [Real.pi_gt_d2]

/-- C8 amended: the step of `182.5` days is slightly less than half the
`365.25`-day period, so the Earth body ends at phase
`1460 * pi / 1461` — within `0.003` of `pi` but not within floating-point
tolerance — and at position within `1/100000` of `-1` in `x` and within
`0.003` of `0` in `y`. -/
theorem claim_C8_half_orbit :
    ∃ b', updatePosition (CelestialBody.make "Earth" 5.972e24 1.0 365.25 6371
        "blue") 182.5 = some b' ∧
      b'.angle = 1460 * Real.pi / 1461 ∧
      |b'.angle - Real.pi| < 3 / 1000 ∧
      |(b'.get_position).1 + 1| < 1 / 100000 ∧
      |(b'.get_position).2| < 3 / 1000 := by
  have hxsmall : Real.pi / 1461 < 0.00216 := by
    rw [div_lt_iff₀ (by norm_num : (0 : ℝ) < 1461)]
    nlinarith [Real.pi_lt_d4]
  have hxpos : 0 < Real.pi / 1461 := by positivity
  have hang : 1460 * Real.pi / 1461 = Real.pi - Real.pi / 1461 := by ring
  refine ⟨_, earth_update_half_year, rfl, ?_, ?_, ?_⟩
  · show |1460 * Real.pi / 1461 - Real.pi| < 3 / 1000
    have h : 1460 * Real.pi / 1461 - Real.pi = -(Real.pi / 1461) := by ring
    rw [h, abs_neg, abs_of_pos hxpos]
    linarith
  · show |(1.0 : ℝ) * Real.cos (1460 * Real.pi / 1461) + 1| < 1 / 100000
    have h10 : (1.0 : ℝ) = 1 := by norm_num
    rw [h10, hang, Real.cos_pi_sub]
    have hcos_le : 1 - (Real.pi / 1461) ^ 2 / 2 ≤ Real.cos (Real.pi / 1461) :=
      Real.one_sub_sq_div_two_le_cos
    have hcos_le1 : Real.cos (Real.pi / 1461) ≤ 1 := Real.cos_le_one _
    have habs : (1 : ℝ) * -Real.cos (Real.pi / 1461) + 1
        = 1 - Real.cos (Real.pi / 1461) := by ring
    rw [habs, abs_of_nonneg (by linarith)]
    nlinarith [hxsmall, hxpos]
  · show |(1.0 : ℝ) * Real.sin (1460 * Real.pi / 1461)| < 3 / 1000
    have h10 : (1.0 : ℝ) = 1 := by norm_num
    rw [h10, hang, Real.sin_pi_sub]
    have hsin_pos : 0 < Real.sin (Real.pi / 1461) := by
      apply Real.sin_pos_of_pos_of_lt_pi hxpos
      nlinarith [Real.pi_pos]
    have hsin_lt : Real.sin (Real.pi / 1461) < Real.pi / 1461 :=
      Real.sin_lt hxpos
    rw [one_mul, abs_of_pos hsin_pos]
    linarith

/-- C2 amended, witnessed on the zero-period Sun body with a 2-day step. -/
theorem claim_C2_no_skip_witness :
    updatePosition (CelestialBody.make "Sun" 1.989e30 0 0 696340 "yellow") 2
      = none :=
  claim_C2_no_skip.1 (CelestialBody.make "Sun" 1.989e30 0 0 696340 "yellow")
    2 rfl
